import Mathlib

/-!
Verification of the two demo HTTP services of this repository:
a product CRUD service over an in-memory list (`crud.py`) and a
stateless greeting service (`app.py`).

Shallow embedding conventions:
* Python `float` values are modelled as exact rationals `ℚ`.
* The in-memory list `fake_db` becomes an explicit `List Product`
  threaded through each handler: a mutating handler returns the
  response (or error) together with the resulting store, a read-only
  handler returns only the response.
* `raise HTTPException(status_code, detail)` becomes returning
  `Except.error ⟨status_code, detail⟩`.
-/

namespace Crud

/-- The `Product` pydantic schema of `crud.py`:
`id : int`, `name : str`, `price : float`, `stock : int`. -/
structure Product where
  id : Int
  name : String
  price : ℚ
  stock : Int
  deriving DecidableEq

/-- The `ProductUpdate` pydantic schema of `crud.py`: all three fields
optional.  A field is `some v` exactly when the request body supplied it
(the handler reads the patch with `exclude_unset=True`, so only fields
explicitly present in the request are applied). -/
structure ProductUpdate where
  name : Option String
  price : Option ℚ
  stock : Option Int
  deriving DecidableEq

/-- `fastapi.HTTPException`, reduced to the two fields the handlers use. -/
structure HTTPException where
  status_code : Nat
  detail : String
  deriving DecidableEq

/-- The 404 error raised by `get_product`, `update_product`, `delete_product`. -/
def notFoundErr : HTTPException := ⟨404, "Product not found"⟩

/-- The 400 error raised by `create_product` on an id collision. -/
def duplicateIdErr : HTTPException := ⟨400, "ID already exists"⟩

/-- The seed store `fake_db` of `crud.py`:
two records, Laptop and Mouse. -/
def fake_db : List Product :=
  [⟨1, "Laptop", 25000, 5⟩, ⟨2, "Mouse", 500, 20⟩]

/-- The ids of the stored products, in store order. -/
def ids (db : List Product) : List Int := db.map Product.id

/-- `any(p["id"] == i for p in db)`: does some stored product carry id `i`?
This is the membership scan of `create_product`. -/
def hasId (db : List Product) (i : Int) : Bool :=
  db.any (fun p => p.id == i)

/-- `get_products` (`GET /products`): returns the full store snapshot. -/
def get_products (db : List Product) : List Product := db

/-- `get_product` (`GET /products/{product_id}`): linear scan for the first
product whose `id` equals `product_id`; 404 if none matches.  Read-only:
the store is not returned because the handler never mutates it. -/
def get_product : List Product → Int → Except HTTPException Product
  | [], _ => .error notFoundErr
  | p :: ps, pid => if p.id == pid then .ok p else get_product ps pid

/-- `create_product` (`POST /products`): reject with 400 when the id is
already present, otherwise append the new product and return it. -/
def create_product (db : List Product) (product : Product) :
    Except HTTPException Product × List Product :=
  if hasId db product.id then (.error duplicateIdErr, db)
  else (.ok product, db ++ [product])

/-- `stored_item_model.model_copy(update=update_data_dict)`: overlay the
explicitly supplied patch fields onto the stored record; `id` is not a
patch field so it is always kept. -/
def model_copy (p : Product) (u : ProductUpdate) : Product :=
  ⟨p.id, u.name.getD p.name, u.price.getD p.price, u.stock.getD p.stock⟩

/-- `update_product` (`PUT /products/{product_id}`): find the first product
with matching id, overlay the patch onto it, write the result back at the
same position and return it; 404 if no id matches. -/
def update_product : List Product → Int → ProductUpdate →
    Except HTTPException Product × List Product
  | [], _, _ => (.error notFoundErr, [])
  | p :: ps, pid, u =>
    if p.id == pid then
      (.ok (model_copy p u), model_copy p u :: ps)
    else
      ((update_product ps pid u).1, p :: (update_product ps pid u).2)

/-- `delete_product` (`DELETE /products/{product_id}`): remove the first
product with matching id (`fake_db.pop(index)`) and return the
confirmation message; 404 if no id matches. -/
def delete_product : List Product → Int → Except HTTPException String × List Product
  | [], _ => (.error notFoundErr, [])
  | p :: ps, pid =>
    if p.id == pid then (.ok "Product deleted successfully", ps)
    else ((delete_product ps pid).1, p :: (delete_product ps pid).2)

/-- The store states reachable from the seed `fake_db` by any sequence of
the five CRUD handlers.  `get_products` and `get_product` are read-only,
so their steps keep the store; the three mutating handlers move to the
store component of their result. -/
inductive Reachable : List Product → Prop where
  | seed : Reachable fake_db
  | listStep (db : List Product) :
      Reachable db → Reachable (get_products db)
  | getStep (db : List Product) (pid : Int) :
      Reachable db → Reachable db
  | createStep (db : List Product) (p : Product) :
      Reachable db → Reachable (create_product db p).2
  | updateStep (db : List Product) (pid : Int) (u : ProductUpdate) :
      Reachable db → Reachable (update_product db pid u).2
  | deleteStep (db : List Product) (pid : Int) :
      Reachable db → Reachable (delete_product db pid).2

end Crud

namespace Greeting

/-- The `Item` pydantic schema of `app.py`:
`name : str`, `description : str | None`, `price : float`, `tax : float | None`. -/
structure Item where
  name : String
  description : Option String
  price : ℚ
  tax : Option ℚ
  deriving DecidableEq

/-- The response shape of `POST /items/`:
`{"item_name": ..., "price_with_tax": ...}`. -/
structure ItemCreated where
  item_name : String
  price_with_tax : ℚ
  deriving DecidableEq

/-- `create_item` (`POST /items/`): echoes the name and computes
`price * 1.07`. -/
def create_item (item : Item) : ItemCreated :=
  ⟨item.name, item.price * 1.07⟩

/-- The response shape of `GET /users/{user_id}`: `{"user_id": ...}`. -/
structure UserEcho where
  user_id : Int
  deriving DecidableEq

/-- `get_user` (`GET /users/{user_id}`): echoes `user_id + 1`. -/
def get_user (user_id : Int) : UserEcho := ⟨user_id + 1⟩

/-- The response shape of `GET /items/`: `{"skip": ..., "limit": ...}`. -/
structure ItemsEcho where
  skip : Int
  limit : Int
  deriving DecidableEq

/-- `get_items` (`GET /items/?skip=&limit=`): echoes the two query
integers; an absent parameter (`none`) takes the declared default,
`0` for `skip` and `10` for `limit`. -/
def get_items (skip : Option Int) (limit : Option Int) : ItemsEcho :=
  ⟨skip.getD 0, limit.getD 10⟩

end Greeting

namespace Crud

lemma hasId_cons (p : Product) (ps : List Product) (i : Int) :
    hasId (p :: ps) i = ((p.id == i) || hasId ps i) := by
  simp [hasId]

lemma hasId_eq_true_iff (db : List Product) (i : Int) :
    hasId db i = true ↔ i ∈ ids db := by
  simp [hasId, ids, List.any_eq_true]

lemma hasId_eq_false_iff (db : List Product) (i : Int) :
    hasId db i = false ↔ i ∉ ids db := by
  rw [← hasId_eq_true_iff]
  simp

lemma get_product_of_not_hasId (db : List Product) (pid : Int)
    (h : hasId db pid = false) : get_product db pid = .error notFoundErr := by
  induction db with
  | nil => rfl
  | cons p ps ih =>
    rw [hasId_cons] at h
    simp only [Bool.or_eq_false_iff] at h
    simp [get_product, h.1, ih h.2]

lemma get_product_append_of_not_hasId (db : List Product) (pid : Int)
    (h : hasId db pid = false) (l : List Product) :
    get_product (db ++ l) pid = get_product l pid := by
  induction db with
  | nil => rfl
  | cons p ps ih =>
    rw [hasId_cons] at h
    simp only [Bool.or_eq_false_iff] at h
    simp [get_product, h.1, ih h.2]

lemma update_product_of_not_hasId (db : List Product) (pid : Int)
    (u : ProductUpdate) (h : hasId db pid = false) :
    update_product db pid u = (.error notFoundErr, db) := by
  induction db with
  | nil => rfl
  | cons p ps ih =>
    rw [hasId_cons] at h
    simp only [Bool.or_eq_false_iff] at h
    simp [update_product, h.1, ih h.2]

lemma delete_product_of_not_hasId (db : List Product) (pid : Int)
    (h : hasId db pid = false) :
    delete_product db pid = (.error notFoundErr, db) := by
  induction db with
  | nil => rfl
  | cons p ps ih =>
    rw [hasId_cons] at h
    simp only [Bool.or_eq_false_iff] at h
    simp [delete_product, h.1, ih h.2]

lemma update_product_ids (db : List Product) (pid : Int) (u : ProductUpdate) :
    ids (update_product db pid u).2 = ids db := by
  induction db with
  | nil => rfl
  | cons p ps ih =>
    by_cases hp : p.id = pid
    · simp [update_product, hp, ids, model_copy]
    · simp [update_product, hp, ids] at ih ⊢
      exact ih

lemma delete_product_ids_sublist (db : List Product) (pid : Int) :
    List.Sublist (ids (delete_product db pid).2) (ids db) := by
  induction db with
  | nil => exact List.Sublist.refl _
  | cons p ps ih =>
    by_cases hp : p.id = pid
    · simp [delete_product, hp, ids]
    · simp only [delete_product, beq_iff_eq, hp, if_false]
      simpa [ids] using ih

lemma update_product_fst_of_get (db : List Product) (pid : Int)
    (u : ProductUpdate) (p : Product) (h : get_product db pid = .ok p) :
    (update_product db pid u).1 = .ok (model_copy p u) := by
  induction db with
  | nil => exact absurd h (by simp [get_product])
  | cons q qs ih =>
    by_cases hq : q.id = pid
    · simp [get_product, hq] at h
      subst h
      simp [update_product, hq]
    · simp [get_product, hq] at h
      simp [update_product, hq]
      exact ih h

lemma update_product_snd_get (db : List Product) (pid : Int)
    (u : ProductUpdate) (p : Product) (h : get_product db pid = .ok p) :
    get_product (update_product db pid u).2 pid = .ok (model_copy p u) := by
  induction db with
  | nil => exact absurd h (by simp [get_product])
  | cons q qs ih =>
    by_cases hq : q.id = pid
    · simp [get_product, hq] at h
      subst h
      simp [update_product, hq, get_product, model_copy]
    · simp only [get_product, beq_iff_eq, hq, if_false] at h
      simp only [update_product, beq_iff_eq, hq, if_false]
      simpa [get_product, hq] using ih h

/-- C1: Create with a fresh id appends the product (store grows by exactly
one) and a subsequent Get on that id returns the created product; Create
with a colliding id fails with HTTP 400 "ID already exists" and leaves the
store completely unchanged. -/
theorem create_spec (db : List Product) (p : Product) :
    (hasId db p.id = false →
      create_product db p = (.ok p, db ++ [p]) ∧
      (create_product db p).2.length = db.length + 1 ∧
      get_product (create_product db p).2 p.id = .ok p) ∧
    (hasId db p.id = true →
      create_product db p = (.error ⟨400, "ID already exists"⟩, db)) := by
  constructor
  · intro h
    have hc : create_product db p = (.ok p, db ++ [p]) := by
      simp [create_product, h]
    refine ⟨hc, ?_, ?_⟩
    · rw [hc]
      simp
    · rw [hc]
      rw [get_product_append_of_not_hasId db p.id h [p]]
      simp [get_product]
  · intro h
    simp [create_product, h, duplicateIdErr]

/-- C1 witness: on the seed store, creating id 3 succeeds and appends;
creating the colliding id 1 fails with 400 and the store is unchanged. -/
theorem create_spec_witness :
    create_product fake_db ⟨3, "Keyboard", 1500, 10⟩ =
      (.ok ⟨3, "Keyboard", 1500, 10⟩, fake_db ++ [⟨3, "Keyboard", 1500, 10⟩]) ∧
    create_product fake_db ⟨1, "Laptop", 25000, 5⟩ =
      (.error ⟨400, "ID already exists"⟩, fake_db) :=
  ⟨((create_spec fake_db ⟨3, "Keyboard", 1500, 10⟩).1 rfl).1,
   (create_spec fake_db ⟨1, "Laptop", 25000, 5⟩).2 rfl⟩

/-- C2: for a product_id carried by no stored product, Get, Update and
Delete all fail with HTTP 404 "Product not found" and the store is exactly
as before. -/
theorem absent_id_spec (db : List Product) (pid : Int) (u : ProductUpdate)
    (h : hasId db pid = false) :
    get_product db pid = .error ⟨404, "Product not found"⟩ ∧
    update_product db pid u = (.error ⟨404, "Product not found"⟩, db) ∧
    delete_product db pid = (.error ⟨404, "Product not found"⟩, db) :=
  ⟨get_product_of_not_hasId db pid h,
   update_product_of_not_hasId db pid u h,
   delete_product_of_not_hasId db pid h⟩

/-- C2 witness: id 3 is absent from the seed store; Get, Update and Delete
on it return 404 and keep the store. -/
theorem absent_id_spec_witness :
    get_product fake_db 3 = .error ⟨404, "Product not found"⟩ ∧
    update_product fake_db 3 ⟨some "X", none, none⟩ =
      (.error ⟨404, "Product not found"⟩, fake_db) ∧
    delete_product fake_db 3 = (.error ⟨404, "Product not found"⟩, fake_db) :=
  absent_id_spec fake_db 3 ⟨some "X", none, none⟩ rfl

/-- C3: when Get finds stored record `p`, Update returns and stores exactly
the overlay of the patch on `p`: each explicitly supplied field is
replaced, every other field (and the id) is kept identical, and an empty
patch reproduces `p` itself; the written-back record is what a subsequent
Get returns. -/
theorem update_patch_spec (db : List Product) (pid : Int) (u : ProductUpdate)
    (p : Product) (h : get_product db pid = .ok p) :
    (update_product db pid u).1 = .ok (model_copy p u) ∧
    (model_copy p u).id = p.id ∧
    (model_copy p u).name = u.name.getD p.name ∧
    (model_copy p u).price = u.price.getD p.price ∧
    (model_copy p u).stock = u.stock.getD p.stock ∧
    get_product (update_product db pid u).2 pid = .ok (model_copy p u) ∧
    (u = ⟨none, none, none⟩ → model_copy p u = p) := by
  refine ⟨update_product_fst_of_get db pid u p h, rfl, rfl, rfl, rfl,
    update_product_snd_get db pid u p h, ?_⟩
  rintro rfl
  rfl

/-- C3 witness: the spec example — on the seed store, updating id 2 with
the patch `{stock: 15}` yields `{id:2, name:"Mouse", price:500, stock:15}`
both as response and as the stored record. -/
theorem update_patch_spec_witness :
    (update_product fake_db 2 ⟨none, none, some 15⟩).1 =
      .ok ⟨2, "Mouse", 500, 15⟩ ∧
    (2 : Int) = 2 ∧ "Mouse" = "Mouse" ∧ (500 : ℚ) = 500 ∧ (15 : Int) = 15 ∧
    get_product (update_product fake_db 2 ⟨none, none, some 15⟩).2 2 =
      .ok ⟨2, "Mouse", 500, 15⟩ ∧
    ((⟨none, none, some 15⟩ : ProductUpdate) = ⟨none, none, none⟩ →
      (⟨2, "Mouse", 500, 15⟩ : Product) = ⟨2, "Mouse", 500, 20⟩) :=
  update_patch_spec fake_db 2 ⟨none, none, some 15⟩ ⟨2, "Mouse", 500, 20⟩ rfl

/-- C4: in every store reachable from the seed by any sequence of List,
Get, Create, Update and Delete requests, the stored ids are pairwise
distinct. -/
theorem reachable_ids_nodup (db : List Product) (h : Reachable db) :
    (ids db).Nodup := by
  induction h with
  | seed => decide
  | listStep db h ih => exact ih
  | getStep db pid h ih => exact ih
  | createStep db p h ih =>
    by_cases hc : hasId db p.id = true
    · simp [create_product, hc]
      exact ih
    · have hc' : hasId db p.id = false := by
        simpa using hc
      have hnotin : p.id ∉ ids db := (hasId_eq_false_iff db p.id).mp hc'
      rw [show (create_product db p).2 = db ++ [p] by simp [create_product, hc']]
      simp only [ids, List.map_append, List.map_cons, List.map_nil]
      rw [List.nodup_append]
      refine ⟨ih, List.nodup_singleton _, ?_⟩
      intro a ha hb
      rw [List.mem_singleton] at hb
      exact hnotin (hb ▸ ha)
  | updateStep db pid u h ih =>
    rw [update_product_ids]
    exact ih
  | deleteStep db pid h ih =>
    exact List.Nodup.sublist (delete_product_ids_sublist db pid) ih

/-- C4 witness: the store after one successful Create on the seed store
still has pairwise distinct ids. -/
theorem reachable_ids_nodup_witness :
    (ids (create_product fake_db ⟨3, "Keyboard", 1500, 10⟩).2).Nodup :=
  reachable_ids_nodup (create_product fake_db ⟨3, "Keyboard", 1500, 10⟩).2
    (Reachable.createStep fake_db ⟨3, "Keyboard", 1500, 10⟩ Reachable.seed)

/-- C5: for any product `p` stored in a duplicate-free store, Get on
`p.id` returns exactly `p` (all four fields).  `get_product` is read-only
by construction: it takes the store and returns only the response. -/
theorem get_present_spec (db : List Product) (p : Product) (hmem : p ∈ db)
    (hnd : (ids db).Nodup) : get_product db p.id = .ok p := by
  induction db with
  | nil => exact absurd hmem (List.not_mem_nil p)
  | cons q qs ih =>
    have hnd' : (ids qs).Nodup := by
      simp only [ids, List.map_cons, List.nodup_cons] at hnd
      exact hnd.2
    have hhead : q.id ∉ List.map Product.id qs := by
      simp only [ids, List.map_cons, List.nodup_cons] at hnd
      exact hnd.1
    rcases List.mem_cons.mp hmem with h | h
    · subst h
      simp [get_product]
    · have hq : ¬ q.id = p.id := by
        intro he
        exact hhead (he ▸ List.mem_map_of_mem Product.id h)
      simp [get_product, hq]
      exact ih h hnd'

/-- C5 witness: Get on id 2 of the seed store returns the stored Mouse
record. -/
theorem get_present_spec_witness :
    get_product fake_db 2 = .ok ⟨2, "Mouse", 500, 20⟩ :=
  get_present_spec fake_db ⟨2, "Mouse", 500, 20⟩ (by decide) (by decide)

/-- C6: Delete on a present id in a duplicate-free store removes exactly
the matching record, keeps all other records in their relative order,
shrinks the store by one, returns the confirmation message, and a
subsequent Get on that id returns 404. -/
theorem delete_present_spec (db : List Product) (pid : Int)
    (h : hasId db pid = true) (hnd : (ids db).Nodup) :
    ∃ pre q suf, db = pre ++ q :: suf ∧ q.id = pid ∧
      delete_product db pid = (.ok "Product deleted successfully", pre ++ suf) ∧
      (pre ++ suf).length + 1 = db.length ∧
      get_product (pre ++ suf) pid = .error ⟨404, "Product not found"⟩ := by
  induction db with
  | nil => simp [hasId] at h
  | cons p ps ih =>
    have hnd' : (ids ps).Nodup := by
      simp only [ids, List.map_cons, List.nodup_cons] at hnd
      exact hnd.2
    have hhead : p.id ∉ List.map Product.id ps := by
      simp only [ids, List.map_cons, List.nodup_cons] at hnd
      exact hnd.1
    by_cases hp : p.id = pid
    · have habs : hasId ps pid = false := by
        rw [hasId_eq_false_iff]
        intro hc
        exact hhead (hp ▸ hc)
      refine ⟨[], p, ps, rfl, hp, ?_, ?_, ?_⟩
      · simp [delete_product, hp]
      · simp
      · simpa using get_product_of_not_hasId ps pid habs
    · have h' : hasId ps pid = true := by
        rw [hasId_cons] at h
        simpa [hp] using h
      obtain ⟨pre, q, suf, hdb, hq, hdel, hlen, hget⟩ := ih h' hnd'
      refine ⟨p :: pre, q, suf, by rw [hdb]; rfl, hq, ?_, ?_, ?_⟩
      · simp [delete_product, hp, hdel]
      · simp only [List.length_append, List.length_cons] at hlen ⊢
        omega
      · have hstep : get_product ((p :: pre) ++ suf) pid =
            get_product (pre ++ suf) pid := by
          simp [get_product, hp]
        rw [hstep, hget]

/-- C6 witness: the spec example — Delete id 1 on the seed store removes
the Laptop record, answers the confirmation message, and Get 1 afterwards
is 404. -/
theorem delete_present_spec_witness :
    ∃ pre q suf, fake_db = pre ++ q :: suf ∧ q.id = 1 ∧
      delete_product fake_db 1 = (.ok "Product deleted successfully", pre ++ suf) ∧
      (pre ++ suf).length + 1 = fake_db.length ∧
      get_product (pre ++ suf) 1 = .error ⟨404, "Product not found"⟩ :=
  delete_present_spec fake_db 1 rfl (by decide)

/-- C9: Update never changes any id: the stored id sequence is preserved
verbatim by every Update (found or not), and when Update succeeds on a
record that Get locates, the returned record keeps that record's id.  The
patch type has no id field, so this holds for every patch. -/
theorem update_id_frame (db : List Product) (pid : Int) (u : ProductUpdate) :
    ids (update_product db pid u).2 = ids db ∧
    (∀ p q, get_product db pid = .ok p →
      (update_product db pid u).1 = .ok q → q.id = p.id) := by
  refine ⟨update_product_ids db pid u, ?_⟩
  intro p q hg hu
  rw [update_product_fst_of_get db pid u p hg] at hu
  cases hu
  rfl

/-- C9 witness: updating id 2 of the seed store with `{stock: 15}` keeps
the id sequence `[1, 2]` and the returned record keeps id 2. -/
theorem update_id_frame_witness :
    ids (update_product fake_db 2 ⟨none, none, some 15⟩).2 = ids fake_db ∧
    (⟨2, "Mouse", 500, 15⟩ : Product).id = (⟨2, "Mouse", 500, 20⟩ : Product).id :=
  ⟨(update_id_frame fake_db 2 ⟨none, none, some 15⟩).1,
   (update_id_frame fake_db 2 ⟨none, none, some 15⟩).2
     ⟨2, "Mouse", 500, 20⟩ ⟨2, "Mouse", 500, 15⟩ rfl rfl⟩

end Crud

namespace Greeting

/-- C7: `POST /items/` answers the item's name and `price * 1.07`; in
particular the body `{name: "x", price: 100}` yields
`{item_name: "x", price_with_tax: 107.0}`. -/
theorem create_item_spec (item : Item) :
    create_item item = ⟨item.name, item.price * 1.07⟩ ∧
    create_item ⟨"x", none, 100, none⟩ = ⟨"x", 107⟩ := by
  refine ⟨rfl, ?_⟩
  simp [create_item]
  norm_num

/-- C8: `GET /users/{user_id}` echoes `user_id + 1` (so `/users/5` answers
6), and `GET /items/` echoes the two query integers, with `skip`
defaulting to 0 and `limit` to 10 when absent. -/
theorem echo_spec (user_id skip limit : Int) :
    get_user user_id = ⟨user_id + 1⟩ ∧
    get_user 5 = ⟨6⟩ ∧
    get_items (some skip) (some limit) = ⟨skip, limit⟩ ∧
    get_items none none = ⟨0, 10⟩ :=
  ⟨rfl, rfl, rfl, rfl⟩

/-- C10: the `POST /items/` response depends only on the body's name and
price: two bodies agreeing on those two fields get identical responses,
whatever their description and tax. -/
theorem create_item_independent (a b : Item) (hn : a.name = b.name)
    (hp : a.price = b.price) : create_item a = create_item b := by
  simp [create_item, hn, hp]

/-- C10 witness: a body with description and tax set gets the same
response as one without them. -/
theorem create_item_independent_witness :
    create_item ⟨"x", some "desc", 100, some 7⟩ =
      create_item ⟨"x", none, 100, none⟩ :=
  create_item_independent ⟨"x", some "desc", 100, some 7⟩
    ⟨"x", none, 100, none⟩ rfl rfl

end Greeting
